import Mathlib

/-!
Verification of the amp-fx-flying-carpet component
(src/extensions/amp-fx-flying-carpet/0.1/amp-fx-flying-carpet.js).

Shallow embedding: DOM child nodes are records carrying the node type, the
text content and the declared layout mode; JS numbers entering the position
check are embedded as rationals; the scale computation, where division by
zero and NaN matter, uses an extended-number type mirroring IEEE-style
Infinity and NaN semantics of JS arithmetic (signed zeros are not modelled;
none of the verified properties depends on them).

Host-runtime collaborators that are not part of this file's source
(getRealChildren, getRealChildNodes, attemptCollapse, the viewport) are
modelled from the spec where noted.
-/

namespace FlyingCarpet

/-- Layout modes of the host framework (src/layout.js enum, referenced by
the component via Layout.FIXED and Layout.FIXED_HEIGHT). -/
inductive Layout where
  | NODISPLAY
  | FIXED
  | FIXED_HEIGHT
  | RESPONSIVE
  | CONTAINER
  | FILL
  | FLEX_ITEM
  | FLUID
  | INTRINSIC
deriving DecidableEq, Repr

/-- A DOM child node as the component observes it: its nodeType (1 element,
3 text, other values for comments etc.), its textContent as a character
list, the layout mode declared on it (meaningful for elements only), and an
identity used to distinguish distinct DOM nodes. -/
structure DomNode where
  nodeType : Nat
  textContent : List Char
  layout : Layout
  id : Nat
deriving DecidableEq, Repr

/-- The character class of the JS regex whitespace escape, used by the test
of the character class complement escape in visibileChildren_:
tab, LF, VT, FF, CR, space, NBSP, and the Unicode space separators. -/
def isJsWhitespace (c : Char) : Bool :=
  c.val = 9 || c.val = 10 || c.val = 11 || c.val = 12 || c.val = 13 ||
  c.val = 32 || c.val = 0xa0 || c.val = 0x1680 ||
  (0x2000 ≤ c.val && c.val ≤ 0x200a) ||
  c.val = 0x2028 || c.val = 0x2029 || c.val = 0x202f || c.val = 0x205f ||
  c.val = 0x3000 || c.val = 0xfeff

/-- The regex test in visibileChildren_ asking whether textContent has at
least one non-whitespace character. -/
def hasNonWhitespace (s : List Char) : Bool :=
  s.any (fun c => !(isJsWhitespace c))

/-- visibileChildren_ from the source: keep element nodes (nodeType 1),
keep text nodes (nodeType 3) whose content has a non-whitespace character,
drop everything else. -/
def visibileChildren_ (nodes : List DomNode) : List DomNode :=
  nodes.filter fun node =>
    if node.nodeType = 1 then true
    else if node.nodeType = 3 then hasNonWhitespace node.textContent
    else false

/-- Spec-side description of which nodes the visible-children filter
retains: element nodes, and text nodes containing at least one
non-whitespace character. -/
def retainedSpec (n : DomNode) : Prop :=
  n.nodeType = 1 ∨ (n.nodeType = 3 ∧ ∃ c ∈ n.textContent, ¬ isJsWhitespace c = true)

instance (n : DomNode) : Decidable (retainedSpec n) := by
  unfold retainedSpec
  infer_instance

lemma visibileChildren_pred (n : DomNode) :
    (if n.nodeType = 1 then true
     else if n.nodeType = 3 then hasNonWhitespace n.textContent
     else false) = decide (retainedSpec n) := by
  by_cases h1 : n.nodeType = 1
  · simp [h1, retainedSpec]
  · by_cases h3 : n.nodeType = 3
    · simp only [if_neg h1, if_pos h3, hasNonWhitespace]
      rw [Bool.eq_iff_iff, List.any_eq_true]
      simp [retainedSpec, h1, h3]
    · simp [h1, h3, retainedSpec]

/-- Claim C2: the visible-children filter retains exactly the element nodes
and the text nodes with at least one non-whitespace character (it equals a
filter by that spec predicate, so non-element / non-text nodes and
whitespace-only text nodes are excluded), and the retained nodes form a
sublist of the input, so the original order is preserved. -/
theorem visible_children_exact (nodes : List DomNode) :
    visibileChildren_ nodes = nodes.filter (fun n => decide (retainedSpec n))
    ∧ List.Sublist (visibileChildren_ nodes) nodes := by
  constructor
  · unfold visibileChildren_
    exact List.filter_congr (fun n _ => visibileChildren_pred n)
  · exact List.filter_sublist nodes

/-- The two userAssert failures of assertPosition_, in source order: the
element sits before 75% of the first viewport, or after the last viewport. -/
inductive PosError where
  | beforeFirstViewport
  | afterLastViewport
deriving DecidableEq, Repr

/-- assertPosition_ from the source: with viewport height, document scroll
height and the layout-box top (JS numbers embedded as rationals), compute
minTop as 0.75 of the viewport height and maxTop as the document height
minus 0.95 of the viewport height, then assert top at least minTop and top
at most maxTop, throwing on the first violated assertion. -/
def assertPosition_ (viewportHeight docHeight top : ℚ) : Except PosError Unit :=
  let minTop := viewportHeight * (3 / 4 : ℚ)
  let maxTop := docHeight - viewportHeight * (19 / 20 : ℚ)
  if top ≥ minTop then
    if top ≤ maxTop then Except.ok ()
    else Except.error PosError.afterLastViewport
  else Except.error PosError.beforeFirstViewport

/-- Observable steps of layoutCallback, in the order they happen. -/
inductive LayoutEv where
  | collapse
  | scheduleChildLayout
  | listenChildBuilt
  | complete
  | propagateError (e : PosError)
deriving DecidableEq, Repr

/-- layoutCallback from the source, as the trace of its observable steps:
on an assertPosition_ failure it first collapses the component and then
rethrows the error; on success it schedules layout of the children, listens
for the child-built event and resolves. -/
def layoutCallback (viewportHeight docHeight top : ℚ) : List LayoutEv :=
  match assertPosition_ viewportHeight docHeight top with
  | Except.error e => [LayoutEv.collapse, LayoutEv.propagateError e]
  | Except.ok _ =>
      [LayoutEv.scheduleChildLayout, LayoutEv.listenChildBuilt, LayoutEv.complete]

/-- Claim C1: with viewport height H, document scroll height D and top
offset T, layout succeeds (runs to completion without collapsing or
propagating an error) iff 0.75·H ≤ T and T ≤ D − 0.95·H; when either bound
is violated the trace is exactly a collapse followed by the propagated
position error, so the collapse happens before the error propagates. -/
theorem layout_position_check (H D T : ℚ) :
    (layoutCallback H D T
        = [LayoutEv.scheduleChildLayout, LayoutEv.listenChildBuilt, LayoutEv.complete]
      ↔ ((3 / 4 : ℚ) * H ≤ T ∧ T ≤ D - (19 / 20 : ℚ) * H))
    ∧ (¬ ((3 / 4 : ℚ) * H ≤ T ∧ T ≤ D - (19 / 20 : ℚ) * H) →
        ∃ e, layoutCallback H D T = [LayoutEv.collapse, LayoutEv.propagateError e]) := by
  unfold layoutCallback assertPosition_
  constructor
  · by_cases h1 : T ≥ H * (3 / 4 : ℚ)
    · by_cases h2 : T ≤ D - H * (19 / 20 : ℚ)
      · simp only [if_pos h1, if_pos h2]
        constructor
        · intro _
          exact ⟨by linarith, by linarith⟩
        · intro _
          trivial

      · simp only [if_pos h1, if_neg h2]
        constructor
        · intro h
          exact absurd h (by simp)
        · intro h
          exact absurd (by linarith [h.2] : T ≤ D - H * (19 / 20 : ℚ)) h2
    · simp only [if_neg h1]
      constructor
      · intro h
        exact absurd h (by simp)
      · intro h
        exact absurd (by linarith [h.1] : T ≥ H * (3 / 4 : ℚ)) h1
  · intro h
    by_cases h1 : T ≥ H * (3 / 4 : ℚ)
    · by_cases h2 : T ≤ D - H * (19 / 20 : ℚ)
      · exact absurd ⟨by linarith, by linarith⟩ h
      · exact ⟨PosError.afterLastViewport, by simp [h1, h2]⟩
    · exact ⟨PosError.beforeFirstViewport, by simp [h1]⟩

/-- Witness for C1 at H = 100, D = 1000, T = 0: the bounds are violated and
the trace is collapse followed by the propagated position error. -/
theorem layout_position_check_witness :
    ¬ ((3 / 4 : ℚ) * 100 ≤ 0 ∧ (0 : ℚ) ≤ 1000 - (19 / 20 : ℚ) * 100)
    ∧ ∃ e, layoutCallback 100 1000 0 = [LayoutEv.collapse, LayoutEv.propagateError e] :=
  ⟨by norm_num, (layout_position_check 100 1000 0).2 (by norm_num)⟩

/-- The two userAssert failures of assertScalable_, in source order. -/
inductive ScaleError where
  | childCountNotOne
  | childNotFixedLayout
deriving DecidableEq, Repr

/-- assertScalable_ from the source: assert that the tracked children list
has exactly one member, then that this member declares the FIXED layout. -/
def assertScalable_ (children : List DomNode) : Except ScaleError Unit :=
  if children.length = 1 then
    match children with
    | c :: _ =>
        if c.layout = Layout.FIXED then Except.ok ()
        else Except.error ScaleError.childNotFixedLayout
    | [] => Except.error ScaleError.childCountNotOne
  else Except.error ScaleError.childCountNotOne

/-- The scale-content decision inside buildCallback: only when the element
carries the scale-content attribute, run assertScalable_ inside try/catch;
on success set scaleContent_ true, on failure log and leave it false, so
the build itself never fails here. -/
def scaleContentAfterBuild (hasScaleAttr : Bool) (children : List DomNode) : Bool :=
  if hasScaleAttr then
    match assertScalable_ children with
    | Except.ok _ => true
    | Except.error _ => false
  else false

/-- Modelled from the spec: getRealChildren, a host BaseElement helper not
in src/, returns the real child elements (elements only) of the component,
here the element nodes of the child-node list. -/
def getRealChildren (childNodes : List DomNode) : List DomNode :=
  childNodes.filter fun n => n.nodeType = 1

/-- Mutable fields of the AmpFlyingCarpet instance that the lifecycle
callbacks read and write: children_ (tracked children), totalChildren_
(visible-child count, a JS number holding an integer), scaleContent_,
firstLayoutCompleted_, and the width style currently set on container_. -/
structure CarpetState where
  children : List DomNode
  totalChildren : ℤ
  scaleContent : Bool
  firstLayoutCompleted : Bool
  containerWidth : Option ℚ
deriving DecidableEq, Repr

/-- buildCallback from the source, restricted to the fields it sets:
children_ from getRealChildren, totalChildren_ as the length of the
visible filtering of the real child nodes, scaleContent_ from the
scale-content attribute and assertScalable_ (soft failure), and the two
remaining fields at their constructor values. getRealChildNodes, a host
helper not in src/, is modelled from the spec as the identity on the given
child-node list. -/
def buildCallback (hasScaleAttr : Bool) (childNodes : List DomNode) : CarpetState :=
  { children := getRealChildren childNodes
    totalChildren := ((visibileChildren_ childNodes).length : ℤ)
    scaleContent := scaleContentAfterBuild hasScaleAttr (getRealChildren childNodes)
    firstLayoutCompleted := false
    containerWidth := none }

/-- Outcome of the promise returned by the host attemptCollapse call. -/
inductive PromiseOutcome where
  | resolved
  | rejected
deriving DecidableEq, Repr

/-- The catch handler attached to attemptCollapse in collapsedCallback: it
swallows a rejection, so the resulting promise always resolves. -/
def catchAll (r : PromiseOutcome) : PromiseOutcome :=
  match r with
  | PromiseOutcome.resolved => PromiseOutcome.resolved
  | PromiseOutcome.rejected => PromiseOutcome.resolved

/-- What collapsedCallback produces: the updated instance fields, whether
it requested collapse of the whole component, and the outcome the caller
observes for the returned promise (an undefined return is observed as a
resolved no-op). -/
structure CollapsedOutcome where
  state : CarpetState
  requestedCollapse : Bool
  result : PromiseOutcome
deriving DecidableEq, Repr

/-- collapsedCallback from the source: look up the child in children_ by
indexOf; when found (index above minus one), splice it out, decrement
totalChildren_, and when the decremented count equals zero request
attemptCollapse on the whole component with its rejection swallowed by the
catch handler; when not found, do nothing. The attemptResult argument is
the outcome the host attemptCollapse promise would have. -/
def collapsedCallback (s : CarpetState) (child : DomNode)
    (attemptResult : PromiseOutcome) : CollapsedOutcome :=
  if child ∈ s.children then
    let s' : CarpetState :=
      { s with
        children := s.children.erase child
        totalChildren := s.totalChildren - 1 }
    if s'.totalChildren = 0 then
      { state := s', requestedCollapse := true, result := catchAll attemptResult }
    else
      { state := s', requestedCollapse := false, result := PromiseOutcome.resolved }
  else
    { state := s, requestedCollapse := false, result := PromiseOutcome.resolved }

/-- Concrete element child used by witnesses and scenarios. -/
def elemA : DomNode :=
  { nodeType := 1, textContent := [], layout := Layout.FIXED, id := 1 }

/-- Concrete non-blank text child used by witnesses and scenarios. -/
def textB : DomNode :=
  { nodeType := 3, textContent := ['x'], layout := Layout.FIXED, id := 2 }

/-- Second concrete element child used by witnesses and scenarios. -/
def elemC : DomNode :=
  { nodeType := 1, textContent := [], layout := Layout.FIXED, id := 3 }

lemma scaleContentAfterBuild_true_iff (l : List DomNode) :
    scaleContentAfterBuild true l = true
      ↔ ∃ c, l = [c] ∧ c.layout = Layout.FIXED := by
  unfold scaleContentAfterBuild assertScalable_
  cases l with
  | nil => simp
  | cons c t =>
      cases t with
      | nil =>
          by_cases hc : c.layout = Layout.FIXED <;> simp [hc]
      | cons d t2 => simp [List.length]

/-- Claim C5: after build, scaleContent_ is true iff the element carries
the scale-content attribute, the tracked children are exactly one child,
and that child declares the FIXED layout; any other combination leaves
scaling disabled while build completes (the decision is a total function
of the inputs, the assertScalable_ failure being caught). -/
theorem scale_content_iff (hasScaleAttr : Bool) (childNodes : List DomNode) :
    (buildCallback hasScaleAttr childNodes).scaleContent = true
      ↔ (hasScaleAttr = true
          ∧ ∃ c, getRealChildren childNodes = [c] ∧ c.layout = Layout.FIXED) := by
  cases hasScaleAttr with
  | false => simp [buildCallback, scaleContentAfterBuild]
  | true => simp [buildCallback, scaleContentAfterBuild_true_iff]

/-- Claim C3: when the collapsed child is currently tracked, the callback
removes it from children_ (with distinct children it is no longer present),
decrements totalChildren_ by one, requests collapse of the whole component
exactly when the decremented count equals zero, and the promise the caller
observes always resolves, a rejection of the host attemptCollapse being
swallowed by the catch handler. -/
theorem collapsed_child_removed (s : CarpetState) (c : DomNode)
    (r : PromiseOutcome) (hm : c ∈ s.children) (hnd : s.children.Nodup) :
    (collapsedCallback s c r).state.children = s.children.erase c
    ∧ c ∉ (collapsedCallback s c r).state.children
    ∧ (collapsedCallback s c r).state.totalChildren = s.totalChildren - 1
    ∧ ((collapsedCallback s c r).requestedCollapse = true ↔ s.totalChildren - 1 = 0)
    ∧ (collapsedCallback s c r).result = PromiseOutcome.resolved := by
  cases r with
  | resolved =>
      simp only [collapsedCallback, if_pos hm]
      by_cases h0 : s.totalChildren - 1 = 0 <;>
        simp [h0, catchAll, List.Nodup.not_mem_erase hnd]
  | rejected =>
      simp only [collapsedCallback, if_pos hm]
      by_cases h0 : s.totalChildren - 1 = 0 <;>
        simp [h0, catchAll, List.Nodup.not_mem_erase hnd]

/-- Witness for C3: a state tracking the single child elemA with count 1;
collapsing elemA with a rejecting attemptCollapse still ends in a resolved
promise, the child is removed, the count reaches 0 and collapse of the
whole component is requested. -/
theorem collapsed_child_removed_witness :
    elemA ∈ (CarpetState.mk [elemA] 1 false false none).children
    ∧ (CarpetState.mk [elemA] 1 false false none).children.Nodup
    ∧ ((collapsedCallback (CarpetState.mk [elemA] 1 false false none) elemA
          PromiseOutcome.rejected).state.children
        = (CarpetState.mk [elemA] 1 false false none).children.erase elemA
      ∧ elemA ∉ (collapsedCallback (CarpetState.mk [elemA] 1 false false none) elemA
          PromiseOutcome.rejected).state.children
      ∧ (collapsedCallback (CarpetState.mk [elemA] 1 false false none) elemA
          PromiseOutcome.rejected).state.totalChildren
        = (CarpetState.mk [elemA] 1 false false none).totalChildren - 1
      ∧ ((collapsedCallback (CarpetState.mk [elemA] 1 false false none) elemA
          PromiseOutcome.rejected).requestedCollapse = true
        ↔ (CarpetState.mk [elemA] 1 false false none).totalChildren - 1 = 0)
      ∧ (collapsedCallback (CarpetState.mk [elemA] 1 false false none) elemA
          PromiseOutcome.rejected).result = PromiseOutcome.resolved) :=
  ⟨by decide, by decide,
    collapsed_child_removed (CarpetState.mk [elemA] 1 false false none) elemA
      PromiseOutcome.rejected (by decide) (by decide)⟩

/-- Claim C7: invoking collapsedCallback again with the same child after it
was handled once is a no-op when the tracked children are distinct: the
second call leaves the state unchanged, requests no collapse, and returns a
resolved no-op. -/
theorem collapsed_idempotent (s : CarpetState) (c : DomNode)
    (r₁ r₂ : PromiseOutcome) (hnd : s.children.Nodup) :
    collapsedCallback ((collapsedCallback s c r₁).state) c r₂ =
      { state := (collapsedCallback s c r₁).state
        requestedCollapse := false
        result := PromiseOutcome.resolved } := by
  have key : ∀ t : CarpetState, c ∉ t.children →
      collapsedCallback t c r₂ =
        { state := t, requestedCollapse := false,
          result := PromiseOutcome.resolved } := by
    intro t ht
    simp [collapsedCallback, ht]
  by_cases hm : c ∈ s.children
  · apply key
    have hstate : (collapsedCallback s c r₁).state.children = s.children.erase c := by
      simp only [collapsedCallback, if_pos hm]
      by_cases h0 : s.totalChildren - 1 = 0 <;> simp [h0]
    rw [hstate]
    exact List.Nodup.not_mem_erase hnd
  · apply key
    have hstate : (collapsedCallback s c r₁).state = s := by
      simp [collapsedCallback, hm]
    rw [hstate]
    exact hm

/-- Witness for C7: with the distinct tracked children elemA and elemC,
collapsing elemA and then collapsing it again leaves the intermediate
state untouched, with no collapse request and a resolved result. -/
theorem collapsed_idempotent_witness :
    (CarpetState.mk [elemA, elemC] 2 false false none).children.Nodup
    ∧ collapsedCallback
        ((collapsedCallback (CarpetState.mk [elemA, elemC] 2 false false none) elemA
            PromiseOutcome.resolved).state) elemA PromiseOutcome.resolved =
      { state := (collapsedCallback (CarpetState.mk [elemA, elemC] 2 false false none)
          elemA PromiseOutcome.resolved).state
        requestedCollapse := false
        result := PromiseOutcome.resolved } :=
  ⟨by decide,
    collapsed_idempotent (CarpetState.mk [elemA, elemC] 2 false false none) elemA
      PromiseOutcome.resolved PromiseOutcome.resolved (by decide)⟩

/-- A host lifecycle callback hitting the component after build, with the
host-supplied data it carries: a measured width, an in-viewport flag, the
viewport geometry seen by layoutCallback, or a collapsing child together
with the outcome the host attemptCollapse promise would have. -/
inductive HostEvent where
  | measureChanged (layoutWidth : ℚ)
  | viewportChanged (inViewport : Bool)
  | layout (viewportHeight docHeight top : ℚ)
  | childCollapsed (child : DomNode) (attemptResult : PromiseOutcome)

/-- One host callback acting on the instance fields, paired with whether it
requested collapse of the whole component via attemptCollapse:
onMeasureChanged sets the container width, viewportCallback only forwards,
layoutCallback sets firstLayoutCompleted_ on a successful position check
(its forced collapse on failure touches none of these fields), and
collapsedCallback acts as modelled above. -/
def step (s : CarpetState) (e : HostEvent) : CarpetState × Bool :=
  match e with
  | HostEvent.measureChanged w => ({ s with containerWidth := some w }, false)
  | HostEvent.viewportChanged _ => (s, false)
  | HostEvent.layout H D T =>
      match assertPosition_ H D T with
      | Except.ok _ => ({ s with firstLayoutCompleted := true }, false)
      | Except.error _ => (s, false)
  | HostEvent.childCollapsed c r =>
      ((collapsedCallback s c r).state, (collapsedCallback s c r).requestedCollapse)

/-- A sequence of host callbacks from a given state: the final state, and
whether any of them requested collapse of the whole component. -/
def run (s : CarpetState) : List HostEvent → CarpetState × Bool
  | [] => (s, false)
  | e :: es => ((run (step s e).1 es).1, ((step s e).2 || (run (step s e).1 es).2))

lemma collapsed_state_mem (s : CarpetState) (c : DomNode) (r : PromiseOutcome)
    (hm : c ∈ s.children) :
    (collapsedCallback s c r).state =
      { s with children := s.children.erase c, totalChildren := s.totalChildren - 1 } := by
  simp only [collapsedCallback, if_pos hm]
  by_cases h0 : s.totalChildren - 1 = 0 <;> simp [h0]

lemma collapsed_not_mem (s : CarpetState) (c : DomNode) (r : PromiseOutcome)
    (hm : c ∉ s.children) :
    collapsedCallback s c r =
      { state := s, requestedCollapse := false, result := PromiseOutcome.resolved } := by
  simp [collapsedCallback, hm]

lemma collapsed_req_zero (s : CarpetState) (c : DomNode) (r : PromiseOutcome) :
    (collapsedCallback s c r).requestedCollapse = true →
      (collapsedCallback s c r).state.totalChildren = 0 := by
  by_cases hm : c ∈ s.children
  · simp only [collapsedCallback, if_pos hm]
    by_cases h0 : s.totalChildren - 1 = 0 <;> simp [h0]
  · simp [collapsed_not_mem s c r hm]

lemma step_diff (s : CarpetState) (e : HostEvent) :
    (step s e).1.totalChildren - ((step s e).1.children.length : ℤ)
      = s.totalChildren - (s.children.length : ℤ) := by
  cases e with
  | measureChanged w => rfl
  | viewportChanged b => rfl
  | layout H D T =>
      simp only [step]
      cases assertPosition_ H D T <;> rfl
  | childCollapsed c r =>
      by_cases hm : c ∈ s.children
      · simp only [step, collapsed_state_mem s c r hm, List.length_erase_of_mem hm]
        have hpos : 0 < s.children.length := List.length_pos_of_mem hm
        omega
      · simp [step, collapsed_not_mem s c r hm]

lemma step_total (s : CarpetState) (e : HostEvent) :
    (step s e).1.totalChildren = s.totalChildren
    ∨ ((step s e).1.totalChildren = s.totalChildren - 1
        ∧ ∃ c r, e = HostEvent.childCollapsed c r ∧ c ∈ s.children) := by
  cases e with
  | measureChanged w => left; rfl
  | viewportChanged b => left; rfl
  | layout H D T =>
      left
      simp only [step]
      cases assertPosition_ H D T <;> rfl
  | childCollapsed c r =>
      by_cases hm : c ∈ s.children
      · right
        refine ⟨?_, c, r, rfl, hm⟩
        simp [step, collapsed_state_mem s c r hm]
      · left
        simp [step, collapsed_not_mem s c r hm]

lemma step_req_zero (s : CarpetState) (e : HostEvent) :
    (step s e).2 = true → (step s e).1.totalChildren = 0 := by
  cases e with
  | measureChanged w => simp [step]
  | viewportChanged b => simp [step]
  | layout H D T =>
      simp only [step]
      cases assertPosition_ H D T <;> simp
  | childCollapsed c r => exact collapsed_req_zero s c r

lemma run_diff (es : List HostEvent) :
    ∀ s : CarpetState,
      (run s es).1.totalChildren - ((run s es).1.children.length : ℤ)
        = s.totalChildren - (s.children.length : ℤ) := by
  induction es with
  | nil => intro s; rfl
  | cons e es ih =>
      intro s
      simp only [run]
      rw [ih]
      exact step_diff s e

lemma run_total_le (es : List HostEvent) :
    ∀ s : CarpetState, (run s es).1.totalChildren ≤ s.totalChildren := by
  induction es with
  | nil => intro s; exact le_refl _
  | cons e es ih =>
      intro s
      simp only [run]
      have h1 := ih (step s e).1
      rcases step_total s e with h | ⟨h, _⟩ <;> omega

lemma run_no_request (es : List HostEvent) :
    ∀ s : CarpetState,
      0 < s.totalChildren - (s.children.length : ℤ) → (run s es).2 = false := by
  induction es with
  | nil => intro s _; rfl
  | cons e es ih =>
      intro s hd
      have hd2 : 0 < (step s e).1.totalChildren - ((step s e).1.children.length : ℤ) := by
        rw [step_diff]
        exact hd
      have h1 : (step s e).2 = false := by
        cases hb : (step s e).2 with
        | false => rfl
        | true =>
            have h0 := step_req_zero s e hb
            have hlen : (0 : ℤ) ≤ ((step s e).1.children.length : ℤ) := Int.ofNat_nonneg _
            omega
      simp only [run, h1, Bool.false_or]
      exact ih _ hd2

lemma visible_length_split (ns : List DomNode) :
    (visibileChildren_ ns).length
      = (getRealChildren ns).length
        + (ns.filter fun n =>
            decide (n.nodeType = 3) && hasNonWhitespace n.textContent).length := by
  induction ns with
  | nil => rfl
  | cons n t ih =>
      by_cases h1 : n.nodeType = 1
      · have h3 : ¬ n.nodeType = 3 := by omega
        simp [visibileChildren_, getRealChildren, List.filter_cons, h1, h3] at ih ⊢
        omega
      · by_cases h3 : n.nodeType = 3
        · cases hw : hasNonWhitespace n.textContent with
          | false =>
              simp [visibileChildren_, getRealChildren, List.filter_cons,
                h1, h3, hw] at ih ⊢
              omega
          | true =>
              simp [visibileChildren_, getRealChildren, List.filter_cons,
                h1, h3, hw] at ih ⊢
              omega
        · simp [visibileChildren_, getRealChildren, List.filter_cons, h1, h3] at ih ⊢
          omega

lemma build_diff (hasScaleAttr : Bool) (ns : List DomNode) :
    (buildCallback hasScaleAttr ns).totalChildren
        - ((buildCallback hasScaleAttr ns).children.length : ℤ)
      = ((ns.filter fun n =>
          decide (n.nodeType = 3) && hasNonWhitespace n.textContent).length : ℤ) := by
  have h := visible_length_split ns
  simp only [buildCallback]
  omega

lemma text_count_pos (ns : List DomNode)
    (h : ∃ n ∈ ns, n.nodeType = 3 ∧ hasNonWhitespace n.textContent = true) :
    0 < (ns.filter fun n =>
        decide (n.nodeType = 3) && hasNonWhitespace n.textContent).length := by
  obtain ⟨n, hn, h3, hw⟩ := h
  have hmem : n ∈ ns.filter fun n =>
      decide (n.nodeType = 3) && hasNonWhitespace n.textContent :=
    List.mem_filter.mpr ⟨hn, by simp [h3, hw]⟩
  exact List.length_pos_of_mem hmem

/-- Claim C8: starting from the count set by buildCallback, under every
sequence of host callbacks the count stays nonnegative and never exceeds
its initial value, and a single callback either leaves it unchanged or
decrements it by exactly one, the latter only for a collapsedCallback on a
currently tracked child; no callback ever recomputes it from the DOM. -/
theorem total_children_invariant (hasScaleAttr : Bool) (childNodes : List DomNode)
    (es : List HostEvent) :
    0 ≤ (run (buildCallback hasScaleAttr childNodes) es).1.totalChildren
    ∧ (run (buildCallback hasScaleAttr childNodes) es).1.totalChildren
        ≤ (buildCallback hasScaleAttr childNodes).totalChildren
    ∧ ∀ (s : CarpetState) (e : HostEvent),
        (step s e).1.totalChildren = s.totalChildren
        ∨ ((step s e).1.totalChildren = s.totalChildren - 1
            ∧ ∃ c r, e = HostEvent.childCollapsed c r ∧ c ∈ s.children) := by
  refine ⟨?_, run_total_le es _, step_total⟩
  have h1 := run_diff es (buildCallback hasScaleAttr childNodes)
  have h2 := build_diff hasScaleAttr childNodes
  have h3 : (0 : ℤ) ≤
      ((run (buildCallback hasScaleAttr childNodes) es).1.children.length : ℤ) :=
    Int.ofNat_nonneg _
  have h4 : (0 : ℤ) ≤ ((childNodes.filter fun n =>
      decide (n.nodeType = 3) && hasNonWhitespace n.textContent).length : ℤ) :=
    Int.ofNat_nonneg _
  omega

/-- Claim C9: after build the count dominates the length of the tracked
children list under every sequence of host callbacks (their difference is
exactly the number of non-blank text nodes counted at build time and is
preserved), so if at least one non-blank text node was counted the count
stays positive forever and the component never requests its own collapse. -/
theorem count_dominates_tracked (hasScaleAttr : Bool) (childNodes : List DomNode)
    (es : List HostEvent) :
    (∀ es2 : List HostEvent,
        ((run (buildCallback hasScaleAttr childNodes) es2).1.children.length : ℤ)
          ≤ (run (buildCallback hasScaleAttr childNodes) es2).1.totalChildren)
    ∧ ((∃ n ∈ childNodes, n.nodeType = 3 ∧ hasNonWhitespace n.textContent = true) →
        0 < (run (buildCallback hasScaleAttr childNodes) es).1.totalChildren
        ∧ (run (buildCallback hasScaleAttr childNodes) es).2 = false) := by
  have h2 := build_diff hasScaleAttr childNodes
  constructor
  · intro es2
    have h1 := run_diff es2 (buildCallback hasScaleAttr childNodes)
    have h4 : (0 : ℤ) ≤ ((childNodes.filter fun n =>
        decide (n.nodeType = 3) && hasNonWhitespace n.textContent).length : ℤ) :=
      Int.ofNat_nonneg _
    omega
  · intro h
    have htext := text_count_pos childNodes h
    have h1 := run_diff es (buildCallback hasScaleAttr childNodes)
    have h3 : (0 : ℤ) ≤
        ((run (buildCallback hasScaleAttr childNodes) es).1.children.length : ℤ) :=
      Int.ofNat_nonneg _
    refine ⟨by omega, ?_⟩
    exact run_no_request es _ (by omega)

/-- Witness for C9 with the single non-blank text child textB and no
further callbacks: the count stays positive and no self-collapse is
requested. -/
theorem count_dominates_tracked_witness :
    (∃ n ∈ [textB], n.nodeType = 3 ∧ hasNonWhitespace n.textContent = true)
    ∧ 0 < (run (buildCallback false [textB]) []).1.totalChildren
    ∧ (run (buildCallback false [textB]) []).2 = false :=
  ⟨by decide, (count_dominates_tracked false [textB] []).2 (by decide)⟩

/-- Counterexample to claim C4: building with the three real child nodes
elemA, textB, elemC (two elements and one non-blank text node) initializes
the count to 3, but collapsing the first element leaves the count at 2,
not 1, so the count cannot drop to 1 and then 0 through the two element
collapses as the claim states. -/
theorem three_children_claim_false :
    (buildCallback false [elemA, textB, elemC]).totalChildren = 3
    ∧ (run (buildCallback false [elemA, textB, elemC])
        [HostEvent.childCollapsed elemA PromiseOutcome.resolved]).1.totalChildren = 2
    ∧ ¬ ((run (buildCallback false [elemA, textB, elemC])
            [HostEvent.childCollapsed elemA PromiseOutcome.resolved]).1.totalChildren = 1
        ∧ (run (buildCallback false [elemA, textB, elemC])
            [HostEvent.childCollapsed elemA PromiseOutcome.resolved,
             HostEvent.childCollapsed elemC PromiseOutcome.resolved]).1.totalChildren
          = 0) := by
  decide

/-- Claim C4 as amended: with three real child nodes (two elements and one
non-blank text node) the count starts at 3, drops to 2 and then to 1 as the
two elements collapse in turn, never reaches 0, and the component never
requests its own collapse. -/
theorem three_children_behavior :
    (buildCallback false [elemA, textB, elemC]).totalChildren = 3
    ∧ (run (buildCallback false [elemA, textB, elemC])
        [HostEvent.childCollapsed elemA PromiseOutcome.resolved]).1.totalChildren = 2
    ∧ (run (buildCallback false [elemA, textB, elemC])
        [HostEvent.childCollapsed elemA PromiseOutcome.resolved,
         HostEvent.childCollapsed elemC PromiseOutcome.resolved]).1.totalChildren = 1
    ∧ (run (buildCallback false [elemA, textB, elemC])
        [HostEvent.childCollapsed elemA PromiseOutcome.resolved,
         HostEvent.childCollapsed elemC PromiseOutcome.resolved]).2 = false := by
  decide

/-- A JS number as the scale computation sees it: a finite value (embedded
as a rational), one of the two infinities, or NaN. Signed zeros are not
modelled; no property below depends on them. -/
inductive JSNum where
  | num (q : ℚ)
  | posInf
  | negInf
  | nan
deriving DecidableEq, Repr

/-- JS division on such numbers: NaN is absorbing, a nonzero finite value
divided by zero gives the signed infinity, zero divided by zero gives NaN,
finite over infinite gives zero, infinite over infinite gives NaN. -/
def jsDiv : JSNum → JSNum → JSNum
  | JSNum.nan, _ => JSNum.nan
  | _, JSNum.nan => JSNum.nan
  | JSNum.num a, JSNum.num b =>
      if b = 0 then
        if 0 < a then JSNum.posInf
        else if a < 0 then JSNum.negInf
        else JSNum.nan
      else JSNum.num (a / b)
  | JSNum.posInf, JSNum.num b => if 0 ≤ b then JSNum.posInf else JSNum.negInf
  | JSNum.negInf, JSNum.num b => if 0 ≤ b then JSNum.negInf else JSNum.posInf
  | JSNum.num _, JSNum.posInf => JSNum.num 0
  | JSNum.num _, JSNum.negInf => JSNum.num 0
  | JSNum.posInf, JSNum.posInf => JSNum.nan
  | JSNum.posInf, JSNum.negInf => JSNum.nan
  | JSNum.negInf, JSNum.posInf => JSNum.nan
  | JSNum.negInf, JSNum.negInf => JSNum.nan

/-- Math.min of two JS numbers: NaN if either argument is NaN, otherwise
the smaller value with the usual infinity ordering. -/
def jsMin : JSNum → JSNum → JSNum
  | JSNum.nan, _ => JSNum.nan
  | _, JSNum.nan => JSNum.nan
  | JSNum.negInf, _ => JSNum.negInf
  | _, JSNum.negInf => JSNum.negInf
  | JSNum.posInf, b => b
  | a, JSNum.posInf => a
  | JSNum.num a, JSNum.num b => JSNum.num (min a b)

/-- Number.isFinite: true exactly on finite values. -/
def JSNum.isFinite : JSNum → Bool
  | JSNum.num _ => true
  | _ => false

/-- Whether a JS number is strictly positive (NaN is not). -/
def JSNum.isPositive : JSNum → Bool
  | JSNum.num q => decide (0 < q)
  | JSNum.posInf => true
  | _ => false

/-- What the width or height attribute read by applyScaleTransform_ can
be, keyed by what Number(getAttribute(...)) does with it: a missing
attribute (getAttribute null) coerces to 0, a non-numeric string to NaN,
and a numeric string to its value. -/
inductive AttrVal where
  | missing
  | nonNumeric
  | numeric (q : ℚ)
deriving DecidableEq, Repr

/-- The Number coercion applied by applyScaleTransform_ to the attribute. -/
def toNumber : AttrVal → JSNum
  | AttrVal.missing => JSNum.num 0
  | AttrVal.nonNumeric => JSNum.nan
  | AttrVal.numeric q => JSNum.num q

/-- applyScaleTransform_ from the source: the scale coefficient written
into the child transform, Math.min of viewport width over Number(width)
and viewport height over Number(height), with no guard on the divisors. -/
def applyScaleTransform_ (viewportWidth viewportHeight : ℚ)
    (widthAttr heightAttr : AttrVal) : JSNum :=
  jsMin (jsDiv (JSNum.num viewportWidth) (toNumber widthAttr))
        (jsDiv (JSNum.num viewportHeight) (toNumber heightAttr))

/-- The scale-transform part of onMeasureChanged: the transform written to
the first tracked child, or none at all when scaleContent_ is false. -/
def onMeasureScaleTransform (scaleContent : Bool) (viewportWidth viewportHeight : ℚ)
    (widthAttr heightAttr : AttrVal) : Option JSNum :=
  if scaleContent then
    some (applyScaleTransform_ viewportWidth viewportHeight widthAttr heightAttr)
  else none

/-- Claim C6: with scaling enabled and declared child dimensions w and h
(nonzero, as in the spec example), the transform set on the child is the
uniform scale by min(W/w, H/h); with scaling disabled no transform is ever
applied. The spec example follows at W=800, H=600, w=400, h=300 where the
factor is 2. -/
theorem scale_transform_factor (W H w h : ℚ) (hw : w ≠ 0) (hh : h ≠ 0) :
    onMeasureScaleTransform true W H (AttrVal.numeric w) (AttrVal.numeric h)
      = some (JSNum.num (min (W / w) (H / h)))
    ∧ ∀ (W2 H2 : ℚ) (wa ha : AttrVal),
        onMeasureScaleTransform false W2 H2 wa ha = none := by
  constructor
  · simp [onMeasureScaleTransform, applyScaleTransform_, toNumber, jsDiv, jsMin, hw, hh]
  · intro W2 H2 wa ha
    rfl

/-- Witness for C6 at the spec example: viewport 800 by 600 and child 400
by 300 give the transform scale factor 2. -/
theorem scale_transform_factor_witness :
    (400 : ℚ) ≠ 0 ∧ (300 : ℚ) ≠ 0
    ∧ onMeasureScaleTransform true 800 600 (AttrVal.numeric 400) (AttrVal.numeric 300)
        = some (JSNum.num 2) := by
  refine ⟨by norm_num, by norm_num, ?_⟩
  have h := (scale_transform_factor 800 600 400 300 (by norm_num) (by norm_num)).1
  rw [h]
  norm_num

/-- Counterexample to claim C10: with viewport 800 by 600, a missing width
attribute and height 300, the width division is unguarded (Number(null) is
0) yet the computed coefficient min(800/0, 600/300) = min(Infinity, 2) = 2
is finite and positive, so a finite positive coefficient does not require
both attributes to parse to finite nonzero numbers. -/
theorem scale_guard_counterexample :
    applyScaleTransform_ 800 600 AttrVal.missing (AttrVal.numeric 300) = JSNum.num 2
    ∧ (applyScaleTransform_ 800 600 AttrVal.missing (AttrVal.numeric 300)).isFinite = true
    ∧ (applyScaleTransform_ 800 600 AttrVal.missing (AttrVal.numeric 300)).isPositive = true
    ∧ toNumber AttrVal.missing = JSNum.num 0 := by
  have h1 : applyScaleTransform_ 800 600 AttrVal.missing (AttrVal.numeric 300)
      = JSNum.num 2 := by
    norm_num [applyScaleTransform_, toNumber, jsDiv, jsMin]
  refine ⟨h1, by rw [h1]; rfl, by rw [h1]; norm_num [JSNum.isPositive], rfl⟩

/-- Claim C10 as amended: the computation divides the viewport dimensions
by the coerced attributes with no guard against zero or NaN; both
attributes parsing to finite nonzero numbers makes the coefficient the
finite value min(W/w, H/h), a missing (or zero) attribute makes its own
division positive infinity (for a positive viewport dimension) and a
non-numeric attribute makes the whole coefficient NaN, but the overall
coefficient can still be finite when only one division is infinite, so the
precondition is sufficient for finiteness, not necessary. -/
theorem scale_unguarded_division (W H w h : ℚ) (hW : 0 < W) (hw : w ≠ 0) (hh : h ≠ 0) :
    jsDiv (JSNum.num W) (toNumber AttrVal.missing) = JSNum.posInf
    ∧ jsDiv (JSNum.num W) (toNumber AttrVal.nonNumeric) = JSNum.nan
    ∧ applyScaleTransform_ W H AttrVal.nonNumeric (AttrVal.numeric h) = JSNum.nan
    ∧ applyScaleTransform_ W H (AttrVal.numeric w) (AttrVal.numeric h)
        = JSNum.num (min (W / w) (H / h))
    ∧ applyScaleTransform_ W H AttrVal.missing (AttrVal.numeric h) = JSNum.num (H / h) := by
  refine ⟨?_, rfl, ?_, ?_, ?_⟩
  · simp [toNumber, jsDiv, hW]
  · simp [applyScaleTransform_, toNumber, jsDiv, jsMin, hh]
  · simp [applyScaleTransform_, toNumber, jsDiv, jsMin, hw, hh]
  · simp [applyScaleTransform_, toNumber, jsDiv, jsMin, hW, hh]

/-- Witness for the amended C10 at viewport 800 by 600, width 400 and
height 300, exercising the missing-width case: the coefficient is the
finite value 600/300. -/
theorem scale_unguarded_division_witness :
    (0 : ℚ) < 800 ∧ (400 : ℚ) ≠ 0 ∧ (300 : ℚ) ≠ 0
    ∧ applyScaleTransform_ 800 600 AttrVal.missing (AttrVal.numeric 300)
        = JSNum.num (600 / 300) :=
  ⟨by norm_num, by norm_num, by norm_num,
    (scale_unguarded_division 800 600 400 300 (by norm_num) (by norm_num)
      (by norm_num)).2.2.2.2⟩

end FlyingCarpet
